import Mathlib

/-!
Verification of the orchestration/routing layer of the Exam Helper system
(`app/agents/orchestrator_agent.py`, `app/agents/explainer_agent.py`,
`app/agents/learner_agent.py`) against its natural-language specification.

The three `process_query` methods are shallowly embedded as total Lean
functions.  Calls across an external boundary (the text-generation model,
the framework's agent loop, the retrieval tool) are modelled by oracle
parameters returning `Except String α`: `Except.error s` models a raised
Python exception `e` with `str(e) = s`.  Each `process_query` itself also
returns inside `Except String _`; a `.error` value there would model an
exception escaping the method as an unhandled fault, and the translations
of the source's `try/except Exception` blocks show this never happens.
-/

/-- Outcome of a call across an external boundary: `Except.error s` models a
raised exception whose `str(e)` rendering is `s`. -/
abbrev Raises (α : Type) := Except String α

/-- One search hit returned by the retrieval tool
(spec section 6: `search(query) -> ordered sequence of {title, snippet, url}`). -/
structure SearchHit where
  title : String
  snippet : String
  url : String
deriving DecidableEq, Repr

/-- One block of a structured (Gemini-style) message content list, as
discriminated by `_extract_text_from_message` in `learner_agent.py`:
a dict (whose optional `"text"` entry is the only field the code reads),
a plain string, or any other value carried by its `str()` rendering. -/
inductive Block where
  | dict (text? : Option String)
  | str (s : String)
  | other (s : String)
deriving DecidableEq, Repr

/-- A message content value: either a structured list of blocks or a
non-list value (the plain-string case), mirroring the two branches of
`_extract_text_from_message`. -/
inductive Content where
  | text (s : String)
  | list (blocks : List Block)
deriving DecidableEq, Repr

/-- A chat message as passed to the text-generation capability. -/
inductive Message where
  | system (content : String)
  | human (content : String)
  | toolResult (query : String) (hits : List SearchHit)
  | ai (content : Content)
deriving DecidableEq, Repr

/-- Python whitespace characters recognised by `str.strip()` (ASCII range;
the unicode additions are irrelevant to the strings this system builds). -/
def pyIsSpace (c : Char) : Bool :=
  c == ' ' || c == '\t' || c == '\n' || c == '\r' || c == '\x0b' || c == '\x0c'

/-- List-level body of Python `str.strip()`: drop whitespace from both ends. -/
def pyStripList (l : List Char) : List Char :=
  ((l.dropWhile pyIsSpace).reverse.dropWhile pyIsSpace).reverse

/-- Python `str.strip()` with no argument. -/
def pyStrip (s : String) : String :=
  String.mk (pyStripList s.toList)

/-- Python `str.format` with a single named argument: every occurrence of
the placeholder `\x7bname\x7d` in the template is replaced by `value`
(the templates in this repository contain no other brace constructs). -/
def pyFormat (template : String) (name : String) (value : String) : String :=
  template.replace ("\x7b" ++ name ++ "\x7d") value

/-- Embedding of `_extract_text_from_message` (`learner_agent.py`):
if the content is a list, render each block (`block.get("text", "")` for a
dict, the string itself for a string, `str(block)` otherwise) and join with
newlines the parts whose `strip()` is truthy, i.e. non-empty; a non-list
content is returned unchanged.  Total and deterministic by construction. -/
def extract_text_from_message : Content → String
  | .text s => s
  | .list blocks =>
      let parts := blocks.map (fun b =>
        match b with
        | .dict t? => t?.getD ""
        | .str s => s
        | .other s => s)
      String.intercalate "\n" (parts.filter (fun p => pyStrip p != ""))

/-- Spec-side rendering of one content block, following the claim's words:
the `text` field of each dict block (empty string when the field is
missing), each string block as-is, and the `str()` rendering of any other
block. -/
def specBlockText : Block → String
  | .dict t? => t?.getD ""
  | .str s => s
  | .other s => s

/-- Spec-side filter, following the claim's words: keep only parts
containing at least one non-whitespace character. -/
def specKeep (p : String) : Bool :=
  p.toList.any (fun c => !(pyIsSpace c))

/-- Spec-side restatement of the extraction routine, written from the
claim's words alone, to be compared with `extract_text_from_message`. -/
def extract_text_spec : Content → String
  | .text s => s
  | .list blocks =>
      String.intercalate "\n" ((blocks.map specBlockText).filter specKeep)

/-- The instructional template of the simple-explain responder
(`EXPLAINER_AGENT_PROMPT`).  The full wording is non-normative (the spec
declares prompt wording a non-goal); what matters for the claims is that
the template is a fixed constant containing no format placeholder, so the
`format(context=...)` call in `get_prompt` leaves it unchanged. -/
def EXPLAINER_AGENT_PROMPT : String :=
  "Persona: a friendly, patient teacher who explains concepts simply. " ++
  "Instructions: very simple language, short sentences, real-life examples."

/-- The instructional template of the exam-detailed responder
(`LEARNER_AGENT_PROMPT`).  Wording abbreviated (non-normative); the single
`format` placeholder `\x7bcontext\x7d` is kept exactly as in the source. -/
def LEARNER_AGENT_PROMPT : String :=
  "Persona: exam training expert producing in-depth explanations and " ++
  "university long-answer format content. CONVERSATION CONTEXT: {context}"

/-- The orchestrator routing prompt (`ORCHESTRATOR_PROMPT`).  Wording
abbreviated (non-normative); the single `format` placeholder
`\x7bintent\x7d` is kept exactly as in the source. -/
def ORCHESTRATOR_PROMPT : String :=
  "You are the ORCHESTRATOR of an AI Learning System; route the student " ++
  "to explainer_agent or learner_agent. CURRENT STATE: Intent: {intent}"

/-- Result dict of `ExplainerAgent.process_query`: keys `"success"`,
`"explainer_agent_result"` (the agent's `get_result_key()`), `"error"`. -/
structure ExplainerResult where
  success : Bool
  explainer_agent_result : Option String
  error : List String
deriving DecidableEq, Repr

/-- Trace of external calls a responder made during one invocation:
the argument lists of its text-generation calls and the queries of its
retrieval-tool calls. -/
structure CallTrace where
  genCalls : List (List Message)
  toolCalls : List String
deriving DecidableEq, Repr

/-- Embedding of `ExplainerAgent.get_prompt`: format the fixed template
with the rendered conversation context (`get_conversation_context` lives
outside src/, so the context string is a parameter). -/
def ExplainerAgent.get_prompt (context : String) : String :=
  pyFormat EXPLAINER_AGENT_PROMPT "context" context

/-- The message list `[SystemMessage(prompt), HumanMessage(query)]` the
explainer passes to its single `model.ainvoke` call. -/
def ExplainerAgent.initMessages (context query : String) : List Message :=
  [Message.system (ExplainerAgent.get_prompt context), Message.human query]

/-- Embedding of `ExplainerAgent.process_query`.  `ainvoke` is the
text-generation oracle (`self.model.ainvoke`), returning the response
content or raising.  The body is the translation of the `try` block: build
the two messages, call the model once, wrap the content into a success
dict; the `except Exception` arm yields the failure dict.  The second
component records the external calls performed (one generation call, no
tool calls: the explainer has no tool call site). -/
def ExplainerAgent.process_query (ainvoke : List Message → Raises String)
    (context query : String) : Raises ExplainerResult × CallTrace :=
  let messages := ExplainerAgent.initMessages context query
  let trace : CallTrace := { genCalls := [messages], toolCalls := [] }
  match ainvoke messages with
  | .ok content =>
      (.ok { success := true, explainer_agent_result := some content, error := [] }, trace)
  | .error e =>
      (.ok { success := false, explainer_agent_result := none, error := [e] }, trace)

/-- Result dict of `LearnerAgent.process_query`: keys `"success"`,
`"learner_agent_result"` (the agent's `get_result_key()`), `"error"`. -/
structure LearnerResult where
  success : Bool
  learner_agent_result : Option String
  error : List String
deriving DecidableEq, Repr

/-- One planning decision of the text-generation capability acting as the
planner of the agentic loop: either request one retrieval-tool call or
emit the final assistant message content. -/
inductive PlanStep where
  | callTool (query : String)
  | finish (content : Content)
deriving DecidableEq, Repr

/-- Modelled from the spec: the iteration cap of the agentic tool-calling
loop.  The loop itself runs inside the external framework invoked by
`LearnerAgent.process_query` (`create_agent(...)` / `agent.ainvoke`), so
its body is not under src/; spec sections 4.3 and 9 fix its shape as a
bounded plan-act-observe cycle with an explicit iteration cap. -/
def AGENT_LOOP_LIMIT : Nat := 25

/-- The error description produced when the planning capability fails to
converge within `AGENT_LOOP_LIMIT` tool calls (spec: `ResponderTimeoutError`). -/
def RESPONDER_TIMEOUT_ERROR_MSG : String :=
  "ResponderTimeoutError: planning did not converge within the tool-call bound"

/-- Retrieval-tool degradation (spec section 6: the tool may return empty;
failures are non-fatal to the responder, which proceeds without
enrichment): a raised tool error is degraded to an empty hit list. -/
def degradeHits : Raises (List SearchHit) → List SearchHit
  | .ok hits => hits
  | .error _ => []

/-- Modelled from the spec: the agentic plan-act-observe loop of the
exam-detailed responder (executed by the external framework in the source).
Each round consults the planner on the message history; a `finish` step
ends the loop with the final content, a `callTool` step invokes the
retrieval tool (failures degraded to no hits), appends the observation and
recurses with one unit of fuel less.  Exhausted fuel is the
`ResponderTimeoutError` case; a planner exception propagates to the
caller's handler.  The second component lists the tool queries issued. -/
def agentLoop (plan : List Message → Raises PlanStep)
    (tool : String → Raises (List SearchHit)) :
    Nat → List Message → Raises Content × List String
  | 0, _ => (.error RESPONDER_TIMEOUT_ERROR_MSG, [])
  | fuel + 1, msgs =>
      match plan msgs with
      | .error e => (.error e, [])
      | .ok (.finish content) => (.ok content, [])
      | .ok (.callTool q) =>
          let step := agentLoop plan tool fuel
            (msgs ++ [Message.toolResult q (degradeHits (tool q))])
          (step.1, q :: step.2)

/-- Embedding of `LearnerAgent.get_prompt`: format the template's
`\x7bcontext\x7d` placeholder with the rendered conversation context. -/
def LearnerAgent.get_prompt (context : String) : String :=
  pyFormat LEARNER_AGENT_PROMPT "context" context

/-- The initial message history of the learner's agent run: the system
prompt plus `HumanMessage(query)`. -/
def LearnerAgent.initMessages (context query : String) : List Message :=
  [Message.system (LearnerAgent.get_prompt context), Message.human query]

/-- Embedding of `LearnerAgent.process_query`.  The `try` body builds the
prompt, runs the framework's agent loop (modelled by `agentLoop` with the
planner and retrieval-tool oracles), extracts the text of the final
message and wraps it into a success dict; any exception — a planner
failure or the loop's timeout — is caught by the `except Exception` arm
and yields the failure dict.  The second component is the trace of
retrieval-tool queries issued during the loop. -/
def LearnerAgent.process_query (plan : List Message → Raises PlanStep)
    (tool : String → Raises (List SearchHit))
    (context query : String) : Raises LearnerResult × List String :=
  let run := agentLoop plan tool AGENT_LOOP_LIMIT (LearnerAgent.initMessages context query)
  match run.1 with
  | .ok content =>
      (.ok { success := true,
             learner_agent_result := some (extract_text_from_message content),
             error := [] }, run.2)
  | .error e =>
      (.ok { success := false, learner_agent_result := none, error := [e] }, run.2)

/-- A Python value as it appears in the orchestrator's result dict:
booleans, strings, `None`, lists, dicts (ordered key-value pairs with
unique keys, as Python dict literals produce), and framework message
objects. -/
inductive PyValue where
  | bool (b : Bool)
  | str (s : String)
  | pyNone
  | listV (xs : List PyValue)
  | dict (fields : List (String × PyValue))
  | msg (m : Message)

/-- A Python dict modelled as its ordered key-value pairs. -/
abbrev PyDict := List (String × PyValue)

/-- Python `dict.get(key, default)` on the assoc-list model. -/
def pyGet (d : PyDict) (key : String) (dflt : PyValue) : PyValue :=
  match d.find? (fun kv => kv.1 == key) with
  | some kv => kv.2
  | none => dflt

/-- The key set of a result dict, in insertion order. -/
def dictKeys (d : PyDict) : List String :=
  d.map Prod.fst

/-- The fields of `ExamHelperState` that `OrchestratorAgent` reads:
`state.get("user_intent", "unknown")` and `state.get("messages", [])`. -/
structure ExamHelperState where
  user_intent : Option String
  messages : Option (List PyValue)

/-- Embedding of `OrchestratorAgent.get_prompt`: format the routing
template's `\x7bintent\x7d` placeholder with the state's `user_intent`
(`"unknown"` when the state or the key is missing). -/
def OrchestratorAgent.get_prompt (state : Option ExamHelperState) : String :=
  pyFormat ORCHESTRATOR_PROMPT "intent"
    ((state.bind (fun s => s.user_intent)).getD "unknown")

/-- The message list handed to the react agent's `invoke`:
`state.get("messages", []) if state else []`. -/
def OrchestratorAgent.inputMessages (state : Option ExamHelperState) : List PyValue :=
  (state.bind (fun s => s.messages)).getD []

/-- Embedding of `OrchestratorAgent.process_query`.  `invoke` is the
oracle for `create_react_agent(...).invoke` (and everything else inside
the `try` block that can raise); it returns the framework's result dict.
On success the method returns the dict literal with keys `"success"`,
`"orchestrator_result"`, `"messages"` (via `result.get("messages", [])`)
and `"error"`; the `except Exception` arm returns the dict literal with
keys `"success"`, `"orchestrator_result"` (set to `None`) and `"error"` —
no `"messages"` key.  The outer `Raises` is the unhandled-fault channel:
the blanket handler makes the result always `.ok`. -/
def OrchestratorAgent.process_query (invoke : List PyValue → Raises PyDict)
    (state : Option ExamHelperState) : Raises PyDict :=
  match invoke (OrchestratorAgent.inputMessages state) with
  | .ok result =>
      .ok [("success", .bool true),
           ("orchestrator_result", .dict result),
           ("messages", pyGet result "messages" (.listV [])),
           ("error", .listV [])]
  | .error e =>
      .ok [("success", .bool false),
           ("orchestrator_result", .pyNone),
           ("error", .listV [.str e])]

/-! Helper lemmas about the agentic loop. -/

/-- The loop issues at most `fuel` tool calls. -/
theorem agentLoop_calls_length_le (plan : List Message → Raises PlanStep)
    (tool : String → Raises (List SearchHit)) :
    ∀ (fuel : Nat) (msgs : List Message),
      (agentLoop plan tool fuel msgs).2.length ≤ fuel := by
  intro fuel
  induction fuel with
  | zero => intro msgs; simp [agentLoop]
  | succ n ih =>
      intro msgs
      cases h : plan msgs with
      | error e => simp [agentLoop, h]
      | ok step =>
          cases step with
          | finish content => simp [agentLoop, h]
          | callTool q =>
              simp only [agentLoop, h, List.length_cons]
              exact Nat.succ_le_succ (ih _)

/-- A planner that never finishes exhausts the fuel and times out. -/
theorem agentLoop_divergent_times_out (plan : List Message → Raises PlanStep)
    (tool : String → Raises (List SearchHit))
    (hdiv : ∀ msgs, ∃ q, plan msgs = .ok (PlanStep.callTool q)) :
    ∀ (fuel : Nat) (msgs : List Message),
      (agentLoop plan tool fuel msgs).1 = .error RESPONDER_TIMEOUT_ERROR_MSG := by
  intro fuel
  induction fuel with
  | zero => intro msgs; simp [agentLoop]
  | succ n ih =>
      intro msgs
      obtain ⟨q, hq⟩ := hdiv msgs
      simp only [agentLoop, hq]
      exact ih _

/-- A planner exception on the current history ends the loop at once. -/
theorem agentLoop_plan_error (plan : List Message → Raises PlanStep)
    (tool : String → Raises (List SearchHit)) (msgs : List Message) (e : String)
    (h : plan msgs = .error e) :
    ∀ fuel, fuel ≠ 0 → agentLoop plan tool fuel msgs = (.error e, []) := by
  intro fuel hf
  cases fuel with
  | zero => exact absurd rfl hf
  | succ n => simp [agentLoop, h]

/-- A retrieval tool that always raises behaves exactly like one that
always returns no hits: the failure is degraded to an empty observation. -/
theorem agentLoop_tool_error_degrades (plan : List Message → Raises PlanStep)
    (tool : String → Raises (List SearchHit))
    (hfail : ∀ q, ∃ s, tool q = .error s) :
    ∀ (fuel : Nat) (msgs : List Message),
      agentLoop plan tool fuel msgs = agentLoop plan (fun _ => .ok []) fuel msgs := by
  intro fuel
  induction fuel with
  | zero => intro msgs; rfl
  | succ n ih =>
      intro msgs
      cases h : plan msgs with
      | error e => simp [agentLoop, h]
      | ok step =>
          cases step with
          | finish content => simp [agentLoop, h]
          | callTool q =>
              obtain ⟨s, hs⟩ := hfail q
              simp only [agentLoop, h, hs, degradeHits]
              rw [ih]

/-- The learner's tool-call trace is that of its loop run. -/
theorem learner_trace_eq_loop_trace (plan : List Message → Raises PlanStep)
    (tool : String → Raises (List SearchHit)) (context query : String) :
    (LearnerAgent.process_query plan tool context query).2
      = (agentLoop plan tool AGENT_LOOP_LIMIT (LearnerAgent.initMessages context query)).2 := by
  unfold LearnerAgent.process_query
  cases h : (agentLoop plan tool AGENT_LOOP_LIMIT (LearnerAgent.initMessages context query)).1 <;>
    simp [h]

/-! Helper lemmas about Python `str.strip()` truthiness. -/

/-- Dropping a satisfying prefix does not change whether all elements
satisfy the predicate. -/
theorem dropWhile_forall_iff (p : Char → Bool) (l : List Char) :
    (∀ x ∈ l.dropWhile p, p x) ↔ (∀ x ∈ l, p x) := by
  induction l with
  | nil => simp
  | cons a l ih => by_cases h : p a <;> simp [List.dropWhile_cons, h, ih]

/-- Stripping yields the empty list exactly when everything is whitespace. -/
theorem pyStripList_eq_nil_iff (l : List Char) :
    pyStripList l = [] ↔ ∀ c ∈ l, pyIsSpace c := by
  unfold pyStripList
  rw [List.reverse_eq_nil_iff, List.dropWhile_eq_nil_iff]
  simp only [List.mem_reverse]
  exact dropWhile_forall_iff pyIsSpace l

/-- Constructor injectivity for `String`. -/
theorem stringMk_eq_iff (a b : List Char) : String.mk a = String.mk b ↔ a = b :=
  ⟨fun h => congrArg String.data h, fun h => congrArg String.mk h⟩

/-- `strip()` of a string is empty exactly when the string is all whitespace. -/
theorem pyStrip_eq_empty_iff (s : String) :
    pyStrip s = "" ↔ ∀ c ∈ s.toList, pyIsSpace c := by
  unfold pyStrip
  rw [show ("" : String) = String.mk [] from rfl, stringMk_eq_iff]
  exact pyStripList_eq_nil_iff s.toList

/-- The code's filter condition (`p.strip()` truthy) coincides with the
claim's condition (`p` contains a non-whitespace character). -/
theorem pyStrip_truthy_eq_specKeep (p : String) :
    (pyStrip p != "") = specKeep p := by
  by_cases h : pyStrip p = ""
  · have hall := (pyStrip_eq_empty_iff p).1 h
    have h2 : specKeep p = false := by
      rw [specKeep, List.any_eq_false]
      intro c hc
      simp [hall c hc]
    simp [h, h2]
  · have hne : ¬ ∀ c ∈ p.toList, pyIsSpace c :=
      fun hall => h ((pyStrip_eq_empty_iff p).2 hall)
    have h2 : specKeep p = true := by
      rw [specKeep, List.any_eq_true]
      push_neg at hne
      obtain ⟨c, hc, hcs⟩ := hne
      exact ⟨c, hc, by simp [hcs]⟩
    simp only [h2, bne_iff_ne, ne_eq]
    exact h

/-! Claim theorems. -/

/-- C1: for both responders (simple-explain/explainer and
exam-detailed/learner), if the underlying text-generation call raises any
exception, `process_query` returns a result with `success = false` and a
non-empty errors list, and the exception never propagates out of
`process_query` as an unhandled fault (the result is always `.ok`, for
every oracle). -/
theorem C1_generation_failure_contained
    (ainvoke : List Message → Raises String)
    (plan : List Message → Raises PlanStep)
    (tool : String → Raises (List SearchHit))
    (context query e : String)
    (hE : ainvoke (ExplainerAgent.initMessages context query) = .error e)
    (hL : plan (LearnerAgent.initMessages context query) = .error e) :
    ((ExplainerAgent.process_query ainvoke context query).1
        = .ok { success := false, explainer_agent_result := none, error := [e] }
      ∧ [e] ≠ ([] : List String))
    ∧ ((LearnerAgent.process_query plan tool context query).1
        = .ok { success := false, learner_agent_result := none, error := [e] }
      ∧ [e] ≠ ([] : List String))
    ∧ (∀ (g : List Message → Raises String) (c q : String),
        ∃ env, (ExplainerAgent.process_query g c q).1 = .ok env)
    ∧ (∀ (p : List Message → Raises PlanStep)
        (t : String → Raises (List SearchHit)) (c q : String),
        ∃ env, (LearnerAgent.process_query p t c q).1 = .ok env) := by
  refine ⟨⟨?_, by simp⟩, ⟨?_, by simp⟩, ?_, ?_⟩
  · simp [ExplainerAgent.process_query, hE]
  · have hloop := agentLoop_plan_error plan tool
      (LearnerAgent.initMessages context query) e hL AGENT_LOOP_LIMIT (by decide)
    simp [LearnerAgent.process_query, hloop]
  · intro g c q
    cases h : g (ExplainerAgent.initMessages c q) with
    | ok content =>
        exact ⟨{ success := true, explainer_agent_result := some content, error := [] },
          by simp [ExplainerAgent.process_query, h]⟩
    | error err =>
        exact ⟨{ success := false, explainer_agent_result := none, error := [err] },
          by simp [ExplainerAgent.process_query, h]⟩
  · intro p t c q
    cases h : (agentLoop p t AGENT_LOOP_LIMIT (LearnerAgent.initMessages c q)).1 with
    | ok content =>
        exact ⟨{ success := true,
                 learner_agent_result := some (extract_text_from_message content),
                 error := [] },
          by simp [LearnerAgent.process_query, h]⟩
    | error err =>
        exact ⟨{ success := false, learner_agent_result := none, error := [err] },
          by simp [LearnerAgent.process_query, h]⟩

/-- Witness for C1 at a concrete failing generation oracle. -/
theorem C1_generation_failure_contained_witness :
    (ExplainerAgent.process_query (fun _ => Except.error "boom") "" "q").1
        = .ok { success := false, explainer_agent_result := none, error := ["boom"] }
    ∧ (LearnerAgent.process_query (fun _ => Except.error "boom")
          (fun _ => Except.ok []) "" "q").1
        = .ok { success := false, learner_agent_result := none, error := ["boom"] } := by
  have h := C1_generation_failure_contained (fun _ => Except.error "boom")
    (fun _ => Except.error "boom") (fun _ => Except.ok []) "" "q" "boom" rfl rfl
  exact ⟨h.1.1, h.2.1.1⟩

/-- C2: every result envelope returned by any `process_query`
(explainer, learner, orchestrator) satisfies the invariant:
`success = false` implies the agent's result key holds `None` and the
errors list is non-empty, and `success = true` implies the errors list is
empty. -/
theorem C2_envelope_invariants
    (ainvoke : List Message → Raises String)
    (plan : List Message → Raises PlanStep)
    (tool : String → Raises (List SearchHit))
    (invoke : List PyValue → Raises PyDict)
    (context query : String) (state : Option ExamHelperState) :
    (∃ env, (ExplainerAgent.process_query ainvoke context query).1 = .ok env
      ∧ (env.success = false → env.explainer_agent_result = none ∧ env.error ≠ [])
      ∧ (env.success = true → env.error = []))
    ∧ (∃ env, (LearnerAgent.process_query plan tool context query).1 = .ok env
      ∧ (env.success = false → env.learner_agent_result = none ∧ env.error ≠ [])
      ∧ (env.success = true → env.error = []))
    ∧ (∃ d, OrchestratorAgent.process_query invoke state = .ok d
      ∧ (pyGet d "success" .pyNone = .bool false →
          pyGet d "orchestrator_result" .pyNone = .pyNone
          ∧ pyGet d "error" .pyNone ≠ .listV [])
      ∧ (pyGet d "success" .pyNone = .bool true →
          pyGet d "error" .pyNone = .listV [])) := by
  refine ⟨?_, ?_, ?_⟩
  · cases h : ainvoke (ExplainerAgent.initMessages context query) with
    | ok content =>
        exact ⟨{ success := true, explainer_agent_result := some content, error := [] },
          by simp [ExplainerAgent.process_query, h], by simp, by simp⟩
    | error err =>
        exact ⟨{ success := false, explainer_agent_result := none, error := [err] },
          by simp [ExplainerAgent.process_query, h], by simp, by simp⟩
  · cases h : (agentLoop plan tool AGENT_LOOP_LIMIT
        (LearnerAgent.initMessages context query)).1 with
    | ok content =>
        exact ⟨{ success := true,
                 learner_agent_result := some (extract_text_from_message content),
                 error := [] },
          by simp [LearnerAgent.process_query, h], by simp, by simp⟩
    | error err =>
        exact ⟨{ success := false, learner_agent_result := none, error := [err] },
          by simp [LearnerAgent.process_query, h], by simp, by simp⟩
  · cases h : invoke (OrchestratorAgent.inputMessages state) with
    | ok result =>
        refine ⟨[("success", .bool true), ("orchestrator_result", .dict result),
            ("messages", pyGet result "messages" (.listV [])), ("error", .listV [])],
          by simp [OrchestratorAgent.process_query, h], ?_, ?_⟩
        · intro hc
          exact absurd hc (by simp [pyGet])
        · intro _
          rfl
    | error e =>
        refine ⟨[("success", .bool false), ("orchestrator_result", .pyNone),
            ("error", .listV [.str e])],
          by simp [OrchestratorAgent.process_query, h], ?_, ?_⟩
        · intro _
          exact ⟨rfl, by simp [pyGet]⟩
        · intro hc
          exact absurd hc (by simp [pyGet])

/-- Witness for C2 at concrete oracles (a succeeding generation call, a
planner that finishes at once, a succeeding framework invocation). -/
theorem C2_envelope_invariants_witness :
    (∃ env, (ExplainerAgent.process_query (fun _ => Except.ok "hi") "" "q").1 = .ok env
      ∧ (env.success = false → env.explainer_agent_result = none ∧ env.error ≠ [])
      ∧ (env.success = true → env.error = []))
    ∧ (∃ env, (LearnerAgent.process_query (fun _ => Except.ok (PlanStep.finish (Content.text "a")))
          (fun _ => Except.ok []) "" "q").1 = .ok env
      ∧ (env.success = false → env.learner_agent_result = none ∧ env.error ≠ [])
      ∧ (env.success = true → env.error = []))
    ∧ (∃ d, OrchestratorAgent.process_query (fun _ => Except.ok []) none = .ok d
      ∧ (pyGet d "success" .pyNone = .bool false →
          pyGet d "orchestrator_result" .pyNone = .pyNone
          ∧ pyGet d "error" .pyNone ≠ .listV [])
      ∧ (pyGet d "success" .pyNone = .bool true →
          pyGet d "error" .pyNone = .listV [])) :=
  C2_envelope_invariants (fun _ => Except.ok "hi")
    (fun _ => Except.ok (PlanStep.finish (Content.text "a")))
    (fun _ => Except.ok []) (fun _ => Except.ok []) "" "q" none

/-- C3: the simple-explain responder performs exactly one non-interactive
text-generation call per invocation (with the fixed system template and
the user query), uses no external tools, and on success returns the
generation output verbatim as the payload. -/
theorem C3_explainer_single_call_verbatim
    (ainvoke : List Message → Raises String) (context query : String) :
    (ExplainerAgent.process_query ainvoke context query).2.genCalls
        = [ExplainerAgent.initMessages context query]
    ∧ (ExplainerAgent.process_query ainvoke context query).2.genCalls.length = 1
    ∧ (ExplainerAgent.process_query ainvoke context query).2.toolCalls = []
    ∧ (∀ out, ainvoke (ExplainerAgent.initMessages context query) = .ok out →
        (ExplainerAgent.process_query ainvoke context query).1
          = .ok { success := true, explainer_agent_result := some out, error := [] }) := by
  cases h : ainvoke (ExplainerAgent.initMessages context query) with
  | ok content =>
      refine ⟨by simp [ExplainerAgent.process_query, h], by simp [ExplainerAgent.process_query, h],
        by simp [ExplainerAgent.process_query, h], ?_⟩
      intro out hout
      cases hout
      simp [ExplainerAgent.process_query, h]
  | error e =>
      refine ⟨by simp [ExplainerAgent.process_query, h], by simp [ExplainerAgent.process_query, h],
        by simp [ExplainerAgent.process_query, h], ?_⟩
      intro out hout
      simp at hout

/-- Witness for C3 at a concrete succeeding generation oracle. -/
theorem C3_explainer_single_call_verbatim_witness :
    (ExplainerAgent.process_query (fun _ => Except.ok "verbatim output") "" "q").1
      = .ok { success := true, explainer_agent_result := some "verbatim output",
              error := [] } :=
  (C3_explainer_single_call_verbatim (fun _ => Except.ok "verbatim output") "" "q").2.2.2
    "verbatim output" rfl

/-- C4: the exam-detailed responder's agentic loop terminates after a
bounded number of tool calls (at most `AGENT_LOOP_LIMIT`) for every
query, and if the planning capability fails to converge within that bound
the responder fails with the `ResponderTimeoutError` description rather
than looping indefinitely. -/
theorem C4_learner_loop_bounded_timeout
    (plan : List Message → Raises PlanStep)
    (tool : String → Raises (List SearchHit)) (context query : String) :
    (LearnerAgent.process_query plan tool context query).2.length ≤ AGENT_LOOP_LIMIT
    ∧ ((∀ msgs, ∃ q, plan msgs = .ok (PlanStep.callTool q)) →
        (LearnerAgent.process_query plan tool context query).1
          = .ok { success := false, learner_agent_result := none,
                  error := [RESPONDER_TIMEOUT_ERROR_MSG] }) := by
  constructor
  · rw [learner_trace_eq_loop_trace]
    exact agentLoop_calls_length_le plan tool AGENT_LOOP_LIMIT _
  · intro hdiv
    have hloop := agentLoop_divergent_times_out plan tool hdiv AGENT_LOOP_LIMIT
      (LearnerAgent.initMessages context query)
    simp [LearnerAgent.process_query, hloop]

/-- Witness for C4 at a concrete never-converging planner. -/
theorem C4_learner_loop_bounded_timeout_witness :
    (LearnerAgent.process_query (fun _ => Except.ok (PlanStep.callTool "t"))
        (fun _ => Except.ok []) "" "q").1
      = .ok { success := false, learner_agent_result := none,
              error := [RESPONDER_TIMEOUT_ERROR_MSG] } :=
  (C4_learner_loop_bounded_timeout (fun _ => Except.ok (PlanStep.callTool "t"))
      (fun _ => Except.ok []) "" "q").2 (fun _ => ⟨"t", rfl⟩)

/-- C5 counterexample: when the turn raises an `UnknownIntentError`, the
orchestrator's `process_query` does NOT surface it as a fatal error to the
caller — the blanket `except Exception` arm silently recovers it into a
non-fatal `success = false` result dict, and no exception propagates.
This refutes the claim as stated. -/
theorem C5_counterexample_unknown_intent_recovered :
    OrchestratorAgent.process_query
        (fun _ => Except.error "UnknownIntentError: no responder for intent") none
      = .ok [("success", PyValue.bool false),
             ("orchestrator_result", PyValue.pyNone),
             ("error", PyValue.listV
                [PyValue.str "UnknownIntentError: no responder for intent"])]
    ∧ ¬ ∃ e, OrchestratorAgent.process_query
        (fun _ => Except.error "UnknownIntentError: no responder for intent") none
      = .error e := by
  refine ⟨rfl, ?_⟩
  rintro ⟨e, he⟩
  simp [OrchestratorAgent.process_query, OrchestratorAgent.inputMessages] at he

/-- C5 (amended): every exception raised during the orchestrator's turn —
including an `UnknownIntentError` from responder resolution — is caught by
the blanket handler and recovered into the non-fatal `success = false`
result dict carrying the error description; nothing propagates to the
caller as a fatal error. -/
theorem C5_amended_exceptions_recovered_nonfatal
    (invoke : List PyValue → Raises PyDict)
    (state : Option ExamHelperState) (e : String)
    (hinv : invoke (OrchestratorAgent.inputMessages state) = .error e) :
    OrchestratorAgent.process_query invoke state
      = .ok [("success", PyValue.bool false),
             ("orchestrator_result", PyValue.pyNone),
             ("error", PyValue.listV [PyValue.str e])] := by
  simp [OrchestratorAgent.process_query, hinv]

/-- Witness for the amended C5 at a concrete raising invocation. -/
theorem C5_amended_exceptions_recovered_nonfatal_witness :
    OrchestratorAgent.process_query
        (fun _ => Except.error "UnknownIntentError: intent unclear") none
      = .ok [("success", PyValue.bool false),
             ("orchestrator_result", PyValue.pyNone),
             ("error", PyValue.listV [PyValue.str "UnknownIntentError: intent unclear"])] :=
  C5_amended_exceptions_recovered_nonfatal
    (fun _ => Except.error "UnknownIntentError: intent unclear") none
    "UnknownIntentError: intent unclear" rfl

/-- C6: for the exam-detailed responder, a failure of the external
retrieval tool never surfaces as a turn failure: the run with an
always-raising tool is indistinguishable from the run with a tool
returning no hits (the responder proceeds without enrichment), and
whenever the planner converges within the bound on that enrichment-free
trajectory the responder still returns a `success = true` envelope. -/
theorem C6_retrieval_failure_silent
    (plan : List Message → Raises PlanStep) (errf : String → String)
    (context query : String) :
    (LearnerAgent.process_query plan (fun s => Except.error (errf s)) context query
       = LearnerAgent.process_query plan (fun _ => Except.ok []) context query)
    ∧ (∀ content,
        (agentLoop plan (fun _ => Except.ok []) AGENT_LOOP_LIMIT
            (LearnerAgent.initMessages context query)).1 = .ok content →
        (LearnerAgent.process_query plan (fun s => Except.error (errf s)) context query).1
          = .ok { success := true,
                  learner_agent_result := some (extract_text_from_message content),
                  error := [] }) := by
  have hloops := agentLoop_tool_error_degrades plan (fun s => Except.error (errf s))
    (fun q => ⟨errf q, rfl⟩)
  have hpq : LearnerAgent.process_query plan (fun s => Except.error (errf s)) context query
      = LearnerAgent.process_query plan (fun _ => Except.ok []) context query := by
    unfold LearnerAgent.process_query
    rw [hloops]
  refine ⟨hpq, ?_⟩
  intro content hconv
  rw [hpq]
  simp [LearnerAgent.process_query, hconv]

/-- Witness for C6 at a planner that finishes at once and a tool that
always raises. -/
theorem C6_retrieval_failure_silent_witness :
    (LearnerAgent.process_query (fun _ => Except.ok (PlanStep.finish (Content.text "ans")))
        (fun _ => Except.error "FirecrawlError: 500") "" "q").1
      = .ok { success := true, learner_agent_result := some "ans", error := [] } :=
  (C6_retrieval_failure_silent (fun _ => Except.ok (PlanStep.finish (Content.text "ans")))
      (fun _ => "FirecrawlError: 500") "" "q").2 (Content.text "ans") rfl

/-- C9: `_extract_text_from_message` is total and deterministic (it is a
Lean function), and its behaviour is exactly the claim's description:
on a list content it newline-joins the `text` field of each dict block
(empty when missing), each string block as-is and the `str()` rendering of
any other block, keeping only parts containing non-whitespace; a non-list
content is returned unchanged.  This is the refinement of
`extract_text_from_message` (from the source) against `extract_text_spec`
(from the claim's words). -/
theorem C9_extract_text_refines_spec (c : Content) :
    extract_text_from_message c = extract_text_spec c := by
  cases c with
  | text s => rfl
  | list blocks =>
      simp only [extract_text_from_message, extract_text_spec]
      congr 1
      have hmap : (blocks.map fun b =>
          match b with
          | Block.dict t? => t?.getD ""
          | Block.str s => s
          | Block.other s => s) = blocks.map specBlockText := by
        apply List.map_congr_left
        intro b _
        cases b <;> rfl
      rw [hmap]
      exact List.filter_congr (fun p _ => pyStrip_truthy_eq_specKeep p)

/-- Concrete evaluation of the extraction routine: the whitespace-only
string block and the missing-text dict block are dropped, the rest joined
with newlines. -/
example :
    extract_text_from_message
      (Content.list [Block.dict (some "a"), Block.dict none, Block.str "  ",
        Block.other "b"]) = "a" ++ "\n" ++ "b" := rfl

/-- C10: the orchestrator's `process_query` result has a different shape
on success versus failure: both results carry the keys `"success"`,
`"orchestrator_result"` and `"error"`, the success result additionally
carries the `"messages"` key, and the failure result omits `"messages"`
entirely. -/
theorem C10_orchestrator_result_shape
    (invoke : List PyValue → Raises PyDict) (state : Option ExamHelperState) :
    ∃ d, OrchestratorAgent.process_query invoke state = .ok d
      ∧ "success" ∈ dictKeys d
      ∧ "orchestrator_result" ∈ dictKeys d
      ∧ "error" ∈ dictKeys d
      ∧ (pyGet d "success" .pyNone = .bool true ↔ "messages" ∈ dictKeys d)
      ∧ (pyGet d "success" .pyNone = .bool false ↔ "messages" ∉ dictKeys d) := by
  cases h : invoke (OrchestratorAgent.inputMessages state) with
  | ok result =>
      refine ⟨[("success", .bool true), ("orchestrator_result", .dict result),
          ("messages", pyGet result "messages" (.listV [])), ("error", .listV [])],
        by simp [OrchestratorAgent.process_query, h], ?_, ?_, ?_, ?_, ?_⟩
      · simp [dictKeys]
      · simp [dictKeys]
      · simp [dictKeys]
      · simp [dictKeys, pyGet]
      · simp [dictKeys, pyGet]
  | error e =>
      refine ⟨[("success", .bool false), ("orchestrator_result", .pyNone),
          ("error", .listV [.str e])],
        by simp [OrchestratorAgent.process_query, h], ?_, ?_, ?_, ?_, ?_⟩
      · simp [dictKeys]
      · simp [dictKeys]
      · simp [dictKeys]
      · simp [dictKeys, pyGet]
      · simp [dictKeys, pyGet]

/-- Witness for C10 at concrete succeeding and failing invocations. -/
theorem C10_orchestrator_result_shape_witness :
    (∃ d, OrchestratorAgent.process_query (fun _ => Except.ok []) none = .ok d
      ∧ "success" ∈ dictKeys d
      ∧ "orchestrator_result" ∈ dictKeys d
      ∧ "error" ∈ dictKeys d
      ∧ (pyGet d "success" .pyNone = .bool true ↔ "messages" ∈ dictKeys d)
      ∧ (pyGet d "success" .pyNone = .bool false ↔ "messages" ∉ dictKeys d))
    ∧ (∃ d, OrchestratorAgent.process_query (fun _ => Except.error "boom") none = .ok d
      ∧ "success" ∈ dictKeys d
      ∧ "orchestrator_result" ∈ dictKeys d
      ∧ "error" ∈ dictKeys d
      ∧ (pyGet d "success" .pyNone = .bool true ↔ "messages" ∈ dictKeys d)
      ∧ (pyGet d "success" .pyNone = .bool false ↔ "messages" ∉ dictKeys d)) :=
  ⟨C10_orchestrator_result_shape (fun _ => Except.ok []) none,
   C10_orchestrator_result_shape (fun _ => Except.error "boom") none⟩
